import Mathlib

/-!
Shallow embedding of the two ink! contracts of this repository:
`src/token/lib.rs` (a fungible-balance ledger) and `src/todo_list/lib.rs`
(a task list).  Machine integers (`u128`) are modelled as `Nat` with explicit
range checks against `U128_MAX`; the ink! `Mapping<AccountId, u128>` is
modelled as a function `AccountId → Option Nat` (an absent entry is `none`);
a Rust `panic!` / `.expect(...)` aborts the whole call, modelled as an
operation returning `none`.
-/

namespace token

/-- Account identifiers are opaque and compared only for equality. -/
abbrev AccountId := Nat

/-- The largest value representable by the balance type `u128`. -/
def U128_MAX : Nat := 2 ^ 128 - 1

/-- `u128::checked_add`: `some (a + b)` unless the sum exceeds `U128_MAX`. -/
def checked_add (a b : Nat) : Option Nat :=
  if a + b ≤ U128_MAX then some (a + b) else none

/-- `u128::checked_sub`: `some (a - b)` unless `b > a`. -/
def checked_sub (a b : Nat) : Option Nat :=
  if b ≤ a then some (a - b) else none

/-- Storage of the token contract: a mapping from account id to balance.
An account with no entry maps to `none`. -/
structure Token where
  balances : AccountId → Option Nat

/-- `Mapping::insert`: overwrite (or create) the entry at key `k`. -/
def mapInsert (m : AccountId → Option Nat) (k : AccountId) (v : Nat) :
    AccountId → Option Nat :=
  fun x => if x = k then some v else m x

/-- `Token::new`: empty balances. -/
def new : Token := ⟨fun _ => none⟩

/-- Errors returned by the token contract (`Error` enum in the source). -/
inductive Error where
  | InsufficientBalance
deriving DecidableEq

/-- `Token::balance_of`: `self.balances.get(account).unwrap_or(0)`.
A pure read, total by construction. -/
def balance_of (t : Token) (account : AccountId) : Nat :=
  (t.balances account).getD 0

/-- `Token::mint`: `current_balance.checked_add(amount).expect("Balance overflow")`
then insert.  The `.expect` panic (call abort) is `none`. -/
def mint (t : Token) (recipient : AccountId) (amount : Nat) : Option Token :=
  let current_balance := (t.balances recipient).getD 0
  match checked_add current_balance amount with
  | some new_balance => some ⟨mapInsert t.balances recipient new_balance⟩
  | none => none

/-- `Token::transfer`: the caller is the ambient `self.env().caller()`,
threaded here as an explicit first argument.  Returns `none` when the call
aborts (a `.expect` panic), otherwise `some (result, new state)`; the
`Err` branch returns the state unchanged.  The two reads happen before the
two inserts, and the insert for `caller` precedes the insert for `recipient`,
exactly as in the source. -/
def transfer (t : Token) (caller recipient : AccountId) (amount : Nat) :
    Option (Except Error Unit × Token) :=
  let caller_balance := (t.balances caller).getD 0
  if caller_balance < amount then
    some (Except.error Error.InsufficientBalance, t)
  else
    let to_balance := (t.balances recipient).getD 0
    match checked_sub caller_balance amount with
    | none => none
    | some new_caller_balance =>
      match checked_add to_balance amount with
      | none => none
      | some new_to_balance =>
        some (Except.ok (),
          ⟨mapInsert (mapInsert t.balances caller new_caller_balance) recipient new_to_balance⟩)

/-- Well-formed ledger state: every stored balance fits in `u128`.
This is enforced by the Rust type of the mapping's values and is an
invariant of every state the contract can hold. -/
def WF (t : Token) : Prop :=
  ∀ a v, t.balances a = some v → v ≤ U128_MAX

/-- Sum of the balances of a given list of accounts (used to talk about
total supply at concrete states whose support is known). -/
def sumOver (t : Token) (accts : List AccountId) : Nat :=
  (accts.map (balance_of t)).sum

/-- Concrete trace: from the empty ledger, mint 10 to account 0, then have
account 0 transfer 5 to itself. -/
def selfRun : Option (Except Error Unit × Token) :=
  (mint new 0 10).bind (fun t1 => transfer t1 0 0 5)

/-- Concrete trace: from the empty ledger, mint 10 to account 0, then have
account 0 transfer 4 to itself.  The only mint deposits 10, and no account
other than 0 is ever written, so the whole supply lives on account 0. -/
def conservRun : Option (Except Error Unit × Token) :=
  (mint new 0 10).bind (fun t1 => transfer t1 0 0 4)

/-- Concrete ledger state in which account 1 holds `U128_MAX` (reachable by
minting `U128_MAX` to account 1 from the empty ledger). -/
def tMax : Token := ⟨fun a => if a = 1 then some U128_MAX else none⟩

/-- Concrete ledger state: account 1 holds `U128_MAX`, account 0 holds 5. -/
def tMax2 : Token :=
  ⟨fun a => if a = 1 then some U128_MAX else if a = 0 then some 5 else none⟩

/-- The state reached from the empty ledger by `mint 0 10`. -/
def t1tok : Token := ⟨mapInsert new.balances 0 10⟩

/-- The state reached from `t1tok` by a successful `transfer` of 4 from
account 0 to account 1. -/
def t2tok : Token := ⟨mapInsert (mapInsert t1tok.balances 0 6) 1 4⟩

end token

namespace todo_list

/-- A task record: `description` text and a `completed` flag. -/
structure TodoItem where
  description : String
  completed : Bool
deriving DecidableEq, Repr

/-- Storage of the todo-list contract: the task vector and the (behaviorally
inert) owner recorded at instantiation. -/
structure TodoList where
  items : List TodoItem
  owner : Nat

/-- `TodoList::new`: empty items, owner = the instantiating caller. -/
def new (caller : Nat) : TodoList := ⟨[], caller⟩

/-- `TodoList::add_item`: push a new task with `completed = false`. -/
def add_item (l : TodoList) (description : String) : TodoList :=
  { l with items := l.items ++ [⟨description, false⟩] }

/-- `TodoList::get_items`: a snapshot copy of the task vector. -/
def get_items (l : TodoList) : List TodoItem := l.items

/-- `Vec::get_mut(index)` followed by `item.completed = true`: mutate the
element at `index` in place if it exists, otherwise leave the list alone. -/
def markAt : List TodoItem → Nat → List TodoItem
  | [], _ => []
  | x :: xs, 0 => { x with completed := true } :: xs
  | x :: xs, Nat.succ n => x :: markAt xs n

/-- `TodoList::mark_completed`: set `completed = true` at `index` when in
bounds; a silent no-op when out of bounds. -/
def mark_completed (l : TodoList) (index : Nat) : TodoList :=
  { l with items := markAt l.items index }

/-- `TodoList::clear_completed`: `self.items.retain(|item| !item.completed)`
— keep, in order, exactly the elements whose `completed` flag is false. -/
def clear_completed (l : TodoList) : TodoList :=
  { l with items := l.items.filter (fun item => !item.completed) }

/-- Concrete store with one uncompleted task. -/
def l0 : TodoList := ⟨[⟨"x", false⟩], 0⟩

/-- Concrete store with one completed and one uncompleted task (the state
after add "x", add "y", mark_completed 0). -/
def l1 : TodoList := ⟨[⟨"x", true⟩, ⟨"y", false⟩], 0⟩

end todo_list

/-!
Theorems settling the claims.  `transfer t caller recipient amount` returns
`none` exactly when the source call panics (aborts with no state change),
`some (Except.error e, t)` when it returns `Err(e)` leaving the state `t`
untouched, and `some (Except.ok (), t')` on success with new state `t'`.
-/

namespace token

/-- Claim C1 (refuted by the code): the spec says a self-transfer of
`amount ≤ balance(caller)` succeeds and leaves the balance unchanged.  In
the source, both balances are read before either write and the credit-side
insert comes last, so for `caller == recipient` the final insert stores
`balance + amount`: minting 10 to account 0 and then self-transferring 5
returns `Ok` but leaves account 0 with 15, not 10. -/
theorem self_transfer_inflates_balance :
    selfRun.map (fun p => (p.1, balance_of p.2 0)) = some (Except.ok (), 15) := by
  rfl

/-- Claim C2 (refuted by the code): conservation fails on self-transfers.
After minting 10 to account 0 (the only mint, so the sum of all mint
amounts is 10) and a successful self-transfer of 4 by account 0, the sum
of all balances (all of which live on accounts 0, 1, 2 — no other account
was ever written) is 14, not 10, so a successful transfer changed the
total supply. -/
theorem conservation_violated_by_self_transfer :
    conservRun.map (fun p => (p.1, sumOver p.2 [0, 1, 2])) = some (Except.ok (), 14) := by
  rfl

/-- Claim C3: if `balance_of caller < amount` then `transfer` returns
`Err(InsufficientBalance)` and the ledger state is returned unchanged (no
balance is mutated). -/
theorem transfer_insufficient_balance_spec (t : Token)
    (caller recipient amount : Nat) (h : balance_of t caller < amount) :
    transfer t caller recipient amount =
      some (Except.error Error.InsufficientBalance, t) := by
  simp only [transfer, balance_of] at *
  rw [if_pos h]

/-- Witness for C3: from the empty ledger, account 0 transferring 5 to
account 1 fails with `InsufficientBalance` and leaves the state intact. -/
theorem transfer_insufficient_balance_witness :
    transfer new 0 1 5 = some (Except.error Error.InsufficientBalance, new) :=
  transfer_insufficient_balance_spec new 0 1 5 (by decide)

/-- Counterexample to claim C4 as stated: the claim quantifies over every
ledger state, caller, recipient and amount, and asserts that whenever
`balance(recipient) + amount` would overflow the whole call aborts.  At
the state where account 1 holds `U128_MAX`, a caller 0 with no funds
transferring 1 to account 1 satisfies the overflow condition yet the call
does not abort: the balance-sufficiency check fires first and the call
returns `Err(InsufficientBalance)` (with no write, but no abort). -/
theorem transfer_overflow_abort_counterexample :
    U128_MAX < balance_of tMax 1 + 1 ∧
      transfer tMax 0 1 1 = some (Except.error Error.InsufficientBalance, tMax) := by
  constructor
  · simp [balance_of, tMax]
  · simp [transfer, balance_of, tMax, U128_MAX]

/-- Claim C4 as amended: if the credit-side addition
`balance(recipient) + amount` would overflow, no partial write is ever
committed — when the caller's balance suffices the whole call aborts
(neither the debit nor the credit is applied), and when it does not the
call returns `Err(InsufficientBalance)` with the state unchanged. -/
theorem transfer_overflow_no_partial_write (t : Token)
    (caller recipient amount : Nat)
    (hov : U128_MAX < balance_of t recipient + amount) :
    (amount ≤ balance_of t caller →
      transfer t caller recipient amount = none) ∧
    (balance_of t caller < amount →
      transfer t caller recipient amount =
        some (Except.error Error.InsufficientBalance, t)) := by
  constructor
  · intro hle
    simp only [transfer, balance_of] at *
    rw [if_neg (by omega)]
    rw [checked_sub, if_pos (by omega)]
    rw [checked_add, if_neg (by omega)]
  · intro hlt
    simp only [transfer, balance_of] at *
    rw [if_pos hlt]

/-- Witness for the amended C4: account 0 (holding 5) transferring 1 to
account 1 (holding `U128_MAX`) aborts the whole call. -/
theorem transfer_overflow_no_partial_write_witness :
    U128_MAX < balance_of tMax2 1 + 1 ∧ transfer tMax2 0 1 1 = none :=
  ⟨by simp [balance_of, tMax2],
   (transfer_overflow_no_partial_write tMax2 0 1 1
      (by simp [balance_of, tMax2])).1 (by simp [balance_of, tMax2])⟩

/-- Claim C5: when `balance(recipient) + amount` fits in `u128`, `mint`
succeeds and sets `balance(recipient)` to exactly
`balance(recipient) + amount` (amount 0 included); when the addition
overflows, the call aborts (`none`) with no state change. -/
theorem mint_spec (t : Token) (recipient amount : Nat) :
    (balance_of t recipient + amount ≤ U128_MAX →
      ∃ t', mint t recipient amount = some t' ∧
        balance_of t' recipient = balance_of t recipient + amount) ∧
    (U128_MAX < balance_of t recipient + amount →
      mint t recipient amount = none) := by
  constructor
  · intro hle
    refine ⟨⟨mapInsert t.balances recipient ((t.balances recipient).getD 0 + amount)⟩, ?_, ?_⟩
    · simp only [mint, balance_of] at *
      rw [checked_add, if_pos hle]
    · simp [balance_of, mapInsert]
  · intro hov
    simp only [mint, balance_of] at *
    rw [checked_add, if_neg (by omega)]

/-- Witness for C5: minting 100 to account 0 on the empty ledger yields
balance 100. -/
theorem mint_spec_witness :
    balance_of new 0 + 100 ≤ U128_MAX ∧
      ∃ t', mint new 0 100 = some t' ∧
        balance_of t' 0 = balance_of new 0 + 100 :=
  ⟨by decide, (mint_spec new 0 100).1 (by decide)⟩

/-- Claim C6: `balance_of` is a pure read — it is a total function of the
state (never fails, returns no modified state, so two calls with no
intervening mutation agree definitionally), and an account with no entry
in the mapping reads as 0. -/
theorem balance_of_spec (t : Token) (account : AccountId) :
    (t.balances account = none → balance_of t account = 0) ∧
    balance_of t account = balance_of t account := by
  refine ⟨fun h => ?_, rfl⟩
  simp [balance_of, h]

/-- Witness for C6: on the empty ledger, account 0 has no entry and reads 0. -/
theorem balance_of_spec_witness : new.balances 0 = none ∧ balance_of new 0 = 0 :=
  ⟨rfl, (balance_of_spec new 0).1 rfl⟩

/-- Claim C9 (frame): `mint recipient amount` leaves every account other
than `recipient` unchanged, and a successful `transfer` leaves every
account other than the caller and the recipient unchanged. -/
theorem frame_spec (t : Token) (x : AccountId) :
    (∀ recipient amount t', mint t recipient amount = some t' →
      x ≠ recipient → balance_of t' x = balance_of t x) ∧
    (∀ caller recipient amount r t',
      transfer t caller recipient amount = some (Except.ok r, t') →
      x ≠ caller → x ≠ recipient → balance_of t' x = balance_of t x) := by
  constructor
  · intro r a t' hm hne
    simp only [mint] at hm
    rcases hadd : checked_add ((t.balances r).getD 0) a with _ | nb <;> rw [hadd] at hm
    · exact absurd hm (by simp)
    · cases hm
      · simp [balance_of, mapInsert, hne]
  · intro c r a u t' ht hnc hnr
    simp only [transfer] at ht
    by_cases hlt : (t.balances c).getD 0 < a
    · rw [if_pos hlt] at ht
      exact absurd ht (by simp)
    · rw [if_neg hlt] at ht
      rcases hsub : checked_sub ((t.balances c).getD 0) a with _ | ncb <;> rw [hsub] at ht
      · exact absurd ht (by simp)
      rcases haddc : checked_add ((t.balances r).getD 0) a with _ | ntb <;> rw [haddc] at ht
      · exact absurd ht (by simp)
      · simp only [Option.some_inj, Prod.mk.injEq] at ht
        rw [← ht.2]
        simp [balance_of, mapInsert, hnc, hnr]

/-- Witness for C9: minting 10 to account 0 leaves account 3 unchanged,
and the successful transfer of 4 from account 0 to account 1 leaves
account 3 unchanged. -/
theorem frame_spec_witness :
    balance_of t1tok 3 = balance_of new 3 ∧ balance_of t2tok 3 = balance_of t1tok 3 :=
  ⟨(frame_spec new 3).1 0 10 t1tok (by rfl) (by decide),
   (frame_spec t1tok 3).2 0 1 4 () t2tok (by rfl) (by decide) (by decide)⟩

/-- Claim C10: on any well-formed ledger (every stored balance fits in
`u128`, as the Rust value type guarantees), a transfer of amount 0 by any
caller — including one with no balance entry — succeeds and leaves every
account's balance unchanged. -/
theorem transfer_zero_spec (t : Token) (caller recipient : AccountId)
    (hwf : WF t) :
    ∃ t', transfer t caller recipient 0 = some (Except.ok (), t') ∧
      ∀ x, balance_of t' x = balance_of t x := by
  have htb : (t.balances recipient).getD 0 ≤ U128_MAX := by
    rcases h : t.balances recipient with _ | v
    · simp [U128_MAX]
    · simpa using hwf recipient v h
  refine ⟨⟨mapInsert (mapInsert t.balances caller ((t.balances caller).getD 0 - 0))
      recipient ((t.balances recipient).getD 0 + 0)⟩, ?_, ?_⟩
  · simp only [transfer]
    rw [if_neg (by omega)]
    rw [checked_sub, if_pos (by omega)]
    rw [checked_add, if_pos (by omega)]
  · intro x
    by_cases hxr : x = recipient
    · subst hxr
      simp [balance_of, mapInsert]
    · by_cases hxc : x = caller
      · subst hxc
        simp [balance_of, mapInsert, hxr]
      · simp [balance_of, mapInsert, hxr, hxc]

/-- Witness for C10: on the empty ledger (well-formed), account 1
transferring 0 to account 2 succeeds and changes no balance. -/
theorem transfer_zero_spec_witness :
    WF new ∧ ∃ t', transfer new 1 2 0 = some (Except.ok (), t') ∧
      ∀ x, balance_of t' x = balance_of new x := by
  have hwf : WF new := by
    intro a v h
    simp [new] at h
  exact ⟨hwf, transfer_zero_spec new 1 2 hwf⟩

end token

namespace todo_list

/-- Helper: `markAt` sets the `completed` flag at an in-bounds index and is
the identity at an out-of-bounds index. -/
theorem markAt_spec (xs : List TodoItem) (i : Nat) :
    (i < xs.length → (markAt xs i)[i]?.map (fun it => it.completed) = some true) ∧
    (xs.length ≤ i → markAt xs i = xs) := by
  induction xs generalizing i with
  | nil => simp [markAt]
  | cons x xs ih =>
    cases i with
    | zero => simp [markAt]
    | succ n =>
      constructor
      · intro h
        simp only [markAt, List.getElem?_cons_succ]
        exact (ih n).1 (by simpa using h)
      · intro h
        simp only [markAt]
        rw [(ih n).2 (by simpa using h)]

/-- Claim C7: if `index` is in bounds, `mark_completed` sets
`completed = true` for the task at that index; if it is out of bounds, the
whole store (task list and owner) is returned unchanged, with no error
signalled — the call is total either way. -/
theorem mark_completed_spec (l : TodoList) (index : Nat) :
    (index < l.items.length →
      ((mark_completed l index).items)[index]?.map (fun it => it.completed) = some true) ∧
    (l.items.length ≤ index → mark_completed l index = l) := by
  constructor
  · intro h
    exact (markAt_spec l.items index).1 h
  · intro h
    simp only [mark_completed]
    rw [(markAt_spec l.items index).2 h]

/-- Witness for C7: marking index 0 of a one-task store completes that
task, and marking index 5 of the same store is a no-op. -/
theorem mark_completed_spec_witness :
    ((mark_completed l0 0).items)[0]?.map (fun it => it.completed) = some true ∧
      mark_completed l0 5 = l0 :=
  ⟨(mark_completed_spec l0 0).1 (by decide), (mark_completed_spec l0 5).2 (by decide)⟩

/-- Claim C8: `clear_completed` keeps no completed task, the survivors are
a sublist of the original tasks (so their relative order is preserved and,
the representation being a list, they are re-indexed contiguously from 0),
and every uncompleted task survives with its multiplicity intact — exactly
the completed tasks are removed. -/
theorem clear_completed_spec (l : TodoList) :
    (∀ it ∈ (clear_completed l).items, it.completed = false) ∧
    (clear_completed l).items.Sublist l.items ∧
    (∀ it : TodoItem, it.completed = false →
      (clear_completed l).items.count it = l.items.count it) := by
  refine ⟨?_, ?_, ?_⟩
  · intro it hmem
    simp only [clear_completed, List.mem_filter] at hmem
    simpa using hmem.2
  · exact List.filter_sublist l.items
  · intro it hit
    simp only [clear_completed]
    exact List.count_filter (by simp [hit])

/-- Witness for C8 (the spec scenario after add "x", add "y",
mark_completed 0): the uncompleted task "y" survives `clear_completed`
with multiplicity 1. -/
theorem clear_completed_spec_witness :
    (clear_completed l1).items.count ⟨"y", false⟩ = l1.items.count ⟨"y", false⟩ :=
  (clear_completed_spec l1).2.2 ⟨"y", false⟩ rfl

end todo_list
